import Mathlib

/-!
Shallow embedding of `feishubot.py` (Dragon-GCS/feishubot), a thin client for
the Feishu messaging API, together with theorems settling the behavioral
claims about it.

Modelling conventions:
* Python `None`/strings from `os.getenv` are `Option String`; Python truthiness
  of such a value is `truthy` (`None` and `""` are falsy).
* JSON documents are the inductive `Json`; Python dicts are association lists
  that keep insertion order, as CPython dicts do.
* The network is a pure oracle `responder : Request → Envelope`; every
  function that performs I/O returns, besides its value, the list of requests
  it issued, in order.  Raised exceptions are the `.error` side of `Except`.
* `datetime.now()` is an `Int` parameter `now`; a single Python call is
  modelled at one frozen instant (the claims do not depend on time advancing
  within a call).
* `json.dumps` on the `content` field followed by the remote side parsing it
  back is modelled as the identity `json_dumps_parsed`: the request carries
  the parsed JSON value of the `content` string.
-/

/-- JSON values (the shape of every request/response body in the client). -/
inductive Json where
  | null
  | bool (b : Bool)
  | num (n : Int)
  | str (s : String)
  | arr (xs : List Json)
  | obj (kvs : List (String × Json))

/-- Python `d[k]` / `k in d` on a dict, as ordered association-list lookup. -/
def dictGet (kvs : List (String × Json)) (k : String) : Option Json :=
  (kvs.find? (fun kv => kv.1 == k)).map (fun kv => kv.2)

mutual

/-- Python `repr` of a JSON value, as produced by the `{body=}` f-string in
`get_open_id` (the only place the client prints a value).  Only the shapes the
client actually builds (strings, lists, dicts) matter. -/
def pyRepr : Json → String
  | .null => "None"
  | .bool b => if b then "True" else "False"
  | .num n => toString n
  | .str s => "\x27" ++ s ++ "\x27"
  | .arr xs => "[" ++ pyReprList xs ++ "]"
  | .obj kvs => "\x7b" ++ pyReprObj kvs ++ "\x7d"

/-- Comma-separated `repr` of list elements. -/
def pyReprList : List Json → String
  | [] => ""
  | [x] => pyRepr x
  | x :: y :: xs => pyRepr x ++ ", " ++ pyReprList (y :: xs)

/-- Comma-separated `repr` of dict entries. -/
def pyReprObj : List (String × Json) → String
  | [] => ""
  | [kv] => "\x27" ++ kv.1 ++ "\x27: " ++ pyRepr kv.2
  | kv :: kv2 :: kvs =>
      "\x27" ++ kv.1 ++ "\x27: " ++ pyRepr kv.2 ++ ", " ++ pyReprObj (kv2 :: kvs)

end

/-- Python exceptions the client can raise.  The source raises `ValueError`
everywhere; `KeyError`/`TypeError` model dynamic failures on missing keys or
ill-typed values from the remote side. -/
inductive PyError where
  | valueError (msg : String)
  | keyError (key : String)
  | typeError (msg : String)
deriving DecidableEq

/-- The five environment variables read at import time (`os.getenv` returns
`None` when unset). -/
structure Config where
  FEISHU_APP_ID : Option String
  FEISHU_APP_SECRET : Option String
  FEISHU_PHONE : Option String
  FEISHU_EMAIL : Option String
  FEISHU_OPEN_ID : Option String

/-- Python truthiness of an `os.getenv` result: `None` and `""` are falsy. -/
def truthy : Option String → Bool
  | none => false
  | some s => s != ""

/-- `ENABLE = True if all((FEISHU_APP_ID, FEISHU_APP_SECRET,
any((FEISHU_OPEN_ID, FEISHU_PHONE, FEISHU_EMAIL)))) else False`. -/
def ENABLE (c : Config) : Bool :=
  truthy c.FEISHU_APP_ID && truthy c.FEISHU_APP_SECRET &&
    (truthy c.FEISHU_OPEN_ID || truthy c.FEISHU_PHONE || truthy c.FEISHU_EMAIL)

def TENANT_TOKEN_API : String :=
  "https://open.feishu.cn/open-apis/auth/v3/tenant_access_token/internal"

def USER_ID_API : String :=
  "https://open.feishu.cn/open-apis/contact/v3/users/batch_get_id"

def MESSAGE_API : String := "https://open.feishu.cn/open-apis/im/v1/messages"

def UPLOAD_IMAGE_API : String := "https://open.feishu.cn/open-apis/im/v1/images"

def UPLOAD_FILE_API : String := "https://open.feishu.cn/open-apis/im/v1/files"

/-- One field of a `MultipartEncoder` body: a plain string field, or a
`(filename, bytes)` file tuple. -/
inductive FormPart where
  | field (s : String)
  | filePart (filename : String) (content : String)
deriving DecidableEq

/-- The body of an outbound request: the `json=` keyword argument, or the
`data=MultipartEncoder(fields)` one. -/
inductive Body where
  | jsonBody (j : Json)
  | multipart (fields : List (String × FormPart))

/-- One outbound `requests.post` call, as observed on the wire. -/
structure Request where
  url : String
  headers : List (String × String)
  params : List (String × String)
  body : Body

/-- A decoded response: `resp["code"]`, `resp["msg"]`, and the remaining
top-level keys (`tenant_access_token`, `expire`, `data`, ...). -/
structure Envelope where
  code : Int
  msg : String
  rest : List (String × Json)

/-- Python `headers[k] = v` on a dict: replace in place, or append. -/
def setKey (kvs : List (String × String)) (k v : String) : List (String × String) :=
  if kvs.any (fun kv => kv.1 == k) then
    kvs.map (fun kv => if kv.1 == k then (k, v) else kv)
  else kvs ++ [(k, v)]

/-- The request `_post` assembles before calling `requests.post`: default JSON
content type when no headers were passed, and
`headers["authorization"] = f"Bearer \x7btoken\x7d"` when `token` is truthy. -/
def buildRequest (url token : String) (headers : Option (List (String × String)))
    (params : List (String × String)) (body : Body) : Request :=
  let hs0 := headers.getD [("Content-Type", "application/json")]
  ⟨url, if token ≠ "" then setKey hs0 "authorization" ("Bearer " ++ token) else hs0,
    params, body⟩

/-- `_post(url, token="", **kwargs)`: posts and decodes; raises
`ValueError(f"Message failed: \x7bresp[msg]\x7d")` when `resp["code"]` is
nonzero, else returns the envelope.  The second component is the request that
was sent (always exactly one). -/
def _post (responder : Request → Envelope) (url token : String)
    (headers : Option (List (String × String))) (params : List (String × String))
    (body : Body) : Except PyError Envelope × Request :=
  let req := buildRequest url token headers params body
  let resp := responder req
  if resp.code ≠ 0 then
    (.error (.valueError ("Message failed: " ++ resp.msg)), req)
  else (.ok resp, req)

/-- `resp[k]` on the decoded envelope: `KeyError` when absent. -/
def envGet (e : Envelope) (k : String) : Except PyError Json :=
  match dictGet e.rest k with
  | some v => .ok v
  | none => .error (.keyError k)

/-- `j[k]` on a JSON value: `KeyError` when the key is absent, `TypeError`
when the value is not a dict. -/
def jsonGet (j : Json) (k : String) : Except PyError Json :=
  match j with
  | .obj kvs =>
      match dictGet kvs k with
      | some v => .ok v
      | none => .error (.keyError k)
  | _ => .error (.typeError "value is not subscriptable")

/-- Iterating `for user in user_list`: the embedding expects a JSON array
(non-list shapes become a `TypeError`). -/
def jsonItems : Json → Except PyError (List Json)
  | .arr xs => .ok xs
  | _ => .error (.typeError "value is not iterable")

/-- The `ValueError` message of the configuration check in `get_open_id`. -/
def configErrMsg : String :=
  "To query open_id when FEISHU_OPEN_ID isn\x27t set, FEISHU_PHONE or FEISHU_EMAIL must be set with your phone or email."

/-- The lookup body built by `get_open_id`: `mobiles`/`emails` keys included
exactly when the corresponding variable is truthy, phone first. -/
def lookupBody (c : Config) : List (String × Json) :=
  (if truthy c.FEISHU_PHONE then
    [("mobiles", Json.arr [Json.str (c.FEISHU_PHONE.getD "")])] else [])
  ++ (if truthy c.FEISHU_EMAIL then
    [("emails", Json.arr [Json.str (c.FEISHU_EMAIL.getD "")])] else [])

/-- The `for user in user_list` loop body: the first record that contains a
`"user_id"` key yields `user["user_id"]`; non-dict records would make
`"user_id" in user` ill-typed in the shapes the API documents. -/
def findUserId : List Json → Except PyError (Option Json)
  | [] => .ok none
  | u :: rest =>
      match u with
      | .obj kvs =>
          match dictGet kvs "user_id" with
          | some v => .ok (some v)
          | none => findUserId rest
      | _ => .error (.typeError "argument is not a container")

/-- `get_open_id(token)`: raises the configuration `ValueError` before any
network call when neither phone nor email is truthy; otherwise posts the
lookup body to `USER_ID_API` and returns the `user_id` of the first record in
`resp["data"]["user_list"]` that has one, raising
`ValueError(f"Query open_id failed: no user_id found. \x7bbody=\x7d")` when
none has. -/
def get_open_id (c : Config) (responder : Request → Envelope) (token : String) :
    Except PyError Json × List Request :=
  if ¬ (truthy c.FEISHU_PHONE || truthy c.FEISHU_EMAIL) then
    (.error (.valueError configErrMsg), [])
  else
    match _post responder USER_ID_API token none [("user_id_type", "open_id")]
        (.jsonBody (.obj (lookupBody c))) with
    | (.error e, req) => (.error e, [req])
    | (.ok resp, req) =>
        let result : Except PyError Json := do
          let dataJ ← envGet resp "data"
          let ulJ ← jsonGet dataJ "user_list"
          let users ← jsonItems ulJ
          match ← findUserId users with
          | some v => pure v
          | none =>
              throw (.valueError
                ("Query open_id failed: no user_id found. body="
                  ++ pyRepr (.obj (lookupBody c))))
        (result, [req])

/-- The cached tenant token: `self.token` and `self.expire_at` of the
`TenantToken` descriptor (a class attribute, hence process-wide state). -/
structure TenantToken where
  token : String
  expire_at : Int
deriving DecidableEq

/-- `TenantToken.__init__`: empty token, `expire_at = datetime.now()`. -/
def TenantToken.initState (now : Int) : TenantToken := ⟨"", now⟩

/-- The body `request_token` posts: `{app_id, app_secret}` (a `None` variable
serializes as JSON `null`). -/
def optJson : Option String → Json
  | none => Json.null
  | some s => Json.str s

/-- `TenantToken.request_token`: one `_post` to `TENANT_TOKEN_API` with no
bearer token; on success stores `resp["tenant_access_token"]` and sets
`expire_at = timedelta(seconds=resp["expire"]) + datetime.now()`.  The source
annotates the token as `str` and the TTL as seconds; replies of any other
shape are modelled as a `TypeError`.  `self.token` is assigned before
`expire` is read, as in the source. -/
def TenantToken.request_token (c : Config) (responder : Request → Envelope)
    (now : Int) (tt : TenantToken) : Except PyError Unit × TenantToken × List Request :=
  match _post responder TENANT_TOKEN_API "" none []
      (.jsonBody (.obj [("app_id", optJson c.FEISHU_APP_ID),
                        ("app_secret", optJson c.FEISHU_APP_SECRET)])) with
  | (.error e, req) => (.error e, tt, [req])
  | (.ok resp, req) =>
      match envGet resp "tenant_access_token" with
      | .error e => (.error e, tt, [req])
      | .ok (.str s) =>
          match envGet resp "expire" with
          | .error e => (.error e, ⟨s, tt.expire_at⟩, [req])
          | .ok (.num n) => (.ok (), ⟨s, n + now⟩, [req])
          | .ok _ => (.error (.typeError "expire is not an integer"), ⟨s, tt.expire_at⟩, [req])
      | .ok _ => (.error (.typeError "tenant_access_token is not a string"), tt, [req])

/-- `TenantToken.__get__`: refresh when `not self.token or
self.expire_at < datetime.now()`, then return the (possibly new) token. -/
def TenantToken.get (c : Config) (responder : Request → Envelope) (now : Int)
    (tt : TenantToken) : Except PyError String × TenantToken × List Request :=
  if tt.token = "" ∨ tt.expire_at < now then
    match TenantToken.request_token c responder now tt with
    | (.error e, tt1, reqs) => (.error e, tt1, reqs)
    | (.ok _, tt1, reqs) => (.ok tt1.token, tt1, reqs)
  else (.ok tt.token, tt, [])

/-- What `FeiShuBot.__getattribute__` returns for an attribute name: the real
attribute when `ENABLE` is true, the empty string for `token` when disabled,
and otherwise the warn-and-return-`None` closure. -/
inductive AttrValue where
  | passthrough (name : String)
  | emptyToken
  | disabledWrap (name : String)
deriving DecidableEq

/-- `FeiShuBot.__getattribute__(name)`. -/
def FeiShuBot.getattribute (enable : Bool) (name : String) : AttrValue :=
  if enable then .passthrough name
  else if name == "token" then .emptyToken
  else .disabledWrap name

/-- Calling the `wrap` closure that `__getattribute__` hands out when the bot
is disabled: logs one warning naming the attribute, touches the network
nowhere, and returns Python `None` (modelled as `Option.none`).  Components:
(result, requests, warnings). -/
def FeiShuBot.callDisabledWrap (name : String) :
    Except PyError (Option Json) × List Request × List String :=
  (.ok none, [], ["FeiShuBot is disabled, " ++ name ++ " is unavailable."])

/-- `FeiShuBot.__init__`: when disabled, returns before touching `user_id`;
otherwise `self.user_id = FEISHU_OPEN_ID or get_open_id(self.token)` — the
truthy configured open_id short-circuits, else the token descriptor is read
(possibly refreshing) and `get_open_id` runs.  Result components: the
`user_id` attribute (`none` when it was never assigned), the token cache
state, and the requests issued. -/
def FeiShuBot.init (c : Config) (responder : Request → Envelope) (now : Int)
    (tt : TenantToken) : Except PyError (Option Json) × TenantToken × List Request :=
  if ENABLE c = false then (.ok none, tt, [])
  else if truthy c.FEISHU_OPEN_ID then
    (.ok (some (.str (c.FEISHU_OPEN_ID.getD ""))), tt, [])
  else
    match TenantToken.get c responder now tt with
    | (.error e, tt1, reqs) => (.error e, tt1, reqs)
    | (.ok tok, tt1, reqs) =>
        match get_open_id c responder tok with
        | (.error e, reqs2) => (.error e, tt1, reqs ++ reqs2)
        | (.ok uid, reqs2) => (.ok (some uid), tt1, reqs ++ reqs2)

/-- `json.dumps(content)` followed by the remote side parsing the `content`
string back: the embedding carries the parsed value, so this round-trip is the
identity. -/
def json_dumps_parsed (j : Json) : Json := j

/-- `FeiShuBot._send_message(msg_type, content)`: reads the token descriptor
(possibly refreshing), then posts
`{receive_id, msg_type, content: json.dumps(content)}` to `MESSAGE_API` with
`params={"receive_id_type": "open_id"}`. -/
def FeiShuBot._send_message (c : Config) (responder : Request → Envelope)
    (now : Int) (tt : TenantToken) (user_id : Json) (msg_type : String)
    (content : Json) : Except PyError Envelope × TenantToken × List Request :=
  match TenantToken.get c responder now tt with
  | (.error e, tt1, reqs) => (.error e, tt1, reqs)
  | (.ok tok, tt1, reqs) =>
      match _post responder MESSAGE_API tok none [("receive_id_type", "open_id")]
          (.jsonBody (.obj [("receive_id", user_id), ("msg_type", .str msg_type),
                            ("content", json_dumps_parsed content)])) with
      | (r, req) => (r, tt1, reqs ++ [req])

/-- A `File` argument: an opened binary stream (`BufferedReader`, carrying its
`.name`), raw `bytes`/`bytearray`, or a plain `str`.  File contents are kept
as opaque strings. -/
inductive PyFile where
  | stream (name : String) (content : String)
  | bytes (content : String)
  | strFile (s : String)
deriving DecidableEq

/-- The raw payload that ends up in the multipart file tuple. -/
def PyFile.content : PyFile → String
  | .stream _ s => s
  | .bytes s => s
  | .strFile s => s

/-- `os.path.basename` on POSIX paths: the part after the last slash. -/
def basename (p : String) : String := (p.splitOn "/").getLastD ""

/-- The filename `_post_file` settles on: the supplied one if truthy, else
`os.path.basename(file.name)` for an opened stream, else the literal
`"file"`. -/
def uploadFilename (file : PyFile) (filename0 : String) : String :=
  if filename0 = "" then
    match file with
    | .stream nm _ => basename nm
    | _ => "file"
  else filename0

/-- `MultipartEncoder.content_type`; the runtime-random boundary is fixed. -/
def MULTIPART_CONTENT_TYPE : String := "multipart/form-data; boundary=form-boundary"

/-- `FeiShuBot._post_file(file_type, file, filename="")`: derives the
filename, builds image fields `{image_type: "message", image: (filename,
file)}` against `UPLOAD_IMAGE_API` when `file_type == "image"`, else fields
`{file_type, file: (filename, file), filename}` against `UPLOAD_FILE_API`;
reads the token descriptor, posts the multipart body, and returns
`resp["data"]`. -/
def FeiShuBot._post_file (c : Config) (responder : Request → Envelope)
    (now : Int) (tt : TenantToken) (file_type : String) (file : PyFile)
    (filename0 : String) : Except PyError Json × TenantToken × List Request :=
  let filename := uploadFilename file filename0
  let urlFields : String × List (String × FormPart) :=
    if file_type = "image" then
      (UPLOAD_IMAGE_API,
        [("image_type", .field "message"), ("image", .filePart filename file.content)])
    else
      (UPLOAD_FILE_API,
        [("file_type", .field file_type), ("file", .filePart filename file.content),
         ("filename", .field filename)])
  match TenantToken.get c responder now tt with
  | (.error e, tt1, reqs) => (.error e, tt1, reqs)
  | (.ok tok, tt1, reqs) =>
      match _post responder urlFields.1 tok
          (some [("Content-Type", MULTIPART_CONTENT_TYPE)]) []
          (.multipart urlFields.2) with
      | (.error e, req) => (.error e, tt1, reqs ++ [req])
      | (.ok resp, req) =>
          match envGet resp "data" with
          | .error e => (.error e, tt1, reqs ++ [req])
          | .ok d => (.ok d, tt1, reqs ++ [req])

/-- `FeiShuBot.send_text(msg)`. -/
def FeiShuBot.send_text (c : Config) (responder : Request → Envelope) (now : Int)
    (tt : TenantToken) (user_id : Json) (msg : String) :
    Except PyError Envelope × TenantToken × List Request :=
  FeiShuBot._send_message c responder now tt user_id "text" (.obj [("text", .str msg)])

/-- `FeiShuBot.send_image(image)`: upload as kind `image`, then send the
returned handle as the content. -/
def FeiShuBot.send_image (c : Config) (responder : Request → Envelope) (now : Int)
    (tt : TenantToken) (user_id : Json) (image : PyFile) :
    Except PyError Envelope × TenantToken × List Request :=
  match FeiShuBot._post_file c responder now tt "image" image "" with
  | (.error e, tt1, reqs) => (.error e, tt1, reqs)
  | (.ok d, tt1, reqs) =>
      match FeiShuBot._send_message c responder now tt1 user_id "image" d with
      | (r, tt2, reqs2) => (r, tt2, reqs ++ reqs2)

/-- `FeiShuBot.send_file(file, file_type, filename="")`. -/
def FeiShuBot.send_file (c : Config) (responder : Request → Envelope) (now : Int)
    (tt : TenantToken) (user_id : Json) (file : PyFile) (file_type : String)
    (filename : String) : Except PyError Envelope × TenantToken × List Request :=
  match FeiShuBot._post_file c responder now tt file_type file filename with
  | (.error e, tt1, reqs) => (.error e, tt1, reqs)
  | (.ok d, tt1, reqs) =>
      match FeiShuBot._send_message c responder now tt1 user_id "file" d with
      | (r, tt2, reqs2) => (r, tt2, reqs ++ reqs2)

/-- `FeiShuBot.send_audio(audio)`: fixed upload kind `opus`. -/
def FeiShuBot.send_audio (c : Config) (responder : Request → Envelope) (now : Int)
    (tt : TenantToken) (user_id : Json) (audio : PyFile) :
    Except PyError Envelope × TenantToken × List Request :=
  match FeiShuBot._post_file c responder now tt "opus" audio "" with
  | (.error e, tt1, reqs) => (.error e, tt1, reqs)
  | (.ok d, tt1, reqs) =>
      match FeiShuBot._send_message c responder now tt1 user_id "audio" d with
      | (r, tt2, reqs2) => (r, tt2, reqs ++ reqs2)

/-- The optional `cv2` capability: extracting the first frame of a video file
(by its filesystem name) and encoding it as JPEG bytes.  `cv2 = None` when
`import cv2` failed. -/
structure Cv2 where
  firstFrameJpg : String → String

/-- The envelope as the Python dict `_post` returned (for operations whose
result is compared against the dict `{}`). -/
def envToJson (e : Envelope) : Json :=
  .obj ([("code", .num e.code), ("msg", .str e.msg)] ++ e.rest)

/-- Python `a | b` on dicts: keys of `a` in order (values overridden by `b`
where present), then the keys only in `b`, in order. -/
def dictUnion (a b : List (String × Json)) : List (String × Json) :=
  a.map (fun kv =>
    match dictGet b kv.1 with
    | some v => (kv.1, v)
    | none => kv)
  ++ b.filter (fun kv => (dictGet a kv.1).isNone)

/-- `d1 | d2` between the two upload results (`TypeError` off dicts). -/
def jsonUnion : Json → Json → Except PyError Json
  | .obj a, .obj b => .ok (.obj (dictUnion a b))
  | _, _ => .error (.typeError "unsupported operand type for |")

/-- `FeiShuBot.send_media(media, cover=b"")`: when `cv2 is None`, warn and
return `{}` before anything else; otherwise derive a missing cover from the
video's first frame (raising when the media is not an opened file), upload
the video as `mp4` and the cover as `image`, merge the two handles with `|`,
and send the merged content.  The `cover` argument is modelled as its bytes
(`""` for the default `b""`).  Components: (result, token state, requests,
warnings). -/
def FeiShuBot.send_media (cv2 : Option Cv2) (c : Config)
    (responder : Request → Envelope) (now : Int) (tt : TenantToken)
    (user_id : Json) (media : PyFile) (cover : String) :
    Except PyError Json × TenantToken × List Request × List String :=
  match cv2 with
  | none =>
      (.ok (.obj []), tt, [],
        ["opencv-python is not installed, send_media is unavailable"])
  | some cv =>
      let coverRes : Except PyError String :=
        if cover = "" then
          match media with
          | .stream nm _ => .ok (cv.firstFrameJpg nm)
          | _ => .error (.valueError "Cover must be set when media is not an opened file")
        else .ok cover
      match coverRes with
      | .error e => (.error e, tt, [], [])
      | .ok coverBytes =>
          match FeiShuBot._post_file c responder now tt "mp4" media "" with
          | (.error e, tt1, reqs1) => (.error e, tt1, reqs1, [])
          | (.ok d1, tt1, reqs1) =>
              match FeiShuBot._post_file c responder now tt1 "image" (.bytes coverBytes) "" with
              | (.error e, tt2, reqs2) => (.error e, tt2, reqs1 ++ reqs2, [])
              | (.ok d2, tt2, reqs2) =>
                  match jsonUnion d1 d2 with
                  | .error e => (.error e, tt2, reqs1 ++ reqs2, [])
                  | .ok content =>
                      match FeiShuBot._send_message c responder now tt2 user_id "media" content with
                      | (.error e, tt3, reqs3) => (.error e, tt3, reqs1 ++ reqs2 ++ reqs3, [])
                      | (.ok env, tt3, reqs3) =>
                          (.ok (envToJson env), tt3, reqs1 ++ reqs2 ++ reqs3, [])

/-- The card content `send_card` builds: fixed config and one markdown
element, plus the blue `plain_text` header block exactly when `header` is
truthy. -/
def cardContent (message header : String) : Json :=
  let base := [("config", Json.obj [("wide_screen_mode", Json.bool true)]),
               ("elements", Json.arr [Json.obj [("tag", Json.str "markdown"),
                                                ("content", Json.str message)]])]
  if header ≠ "" then
    .obj (base ++ [("header", Json.obj
      [("title", Json.obj [("tag", Json.str "plain_text"),
                           ("content", Json.str header)]),
       ("template", Json.str "blue")])])
  else .obj base

/-- `FeiShuBot.send_card(message, header="")`: sends the card content with
`msg_type "interactive"` and — having no `return` statement — returns Python
`None` on success. -/
def FeiShuBot.send_card (c : Config) (responder : Request → Envelope) (now : Int)
    (tt : TenantToken) (user_id : Json) (message header : String) :
    Except PyError (Option Envelope) × TenantToken × List Request :=
  match FeiShuBot._send_message c responder now tt user_id "interactive"
      (cardContent message header) with
  | (.error e, tt1, reqs) => (.error e, tt1, reqs)
  | (.ok _, tt1, reqs) => (.ok none, tt1, reqs)

/-- The single request `request_token` issues (no bearer token is attached:
the auth call itself is made with the default empty token). -/
def authRequest (c : Config) : Request :=
  ⟨TENANT_TOKEN_API, [("Content-Type", "application/json")], [],
    .jsonBody (.obj [("app_id", optJson c.FEISHU_APP_ID),
                     ("app_secret", optJson c.FEISHU_APP_SECRET)])⟩

/-- The request `get_open_id` issues once the configuration check passed. -/
def lookupRequest (c : Config) (token : String) : Request :=
  ⟨USER_ID_API,
    if token ≠ "" then
      [("Content-Type", "application/json"), ("authorization", "Bearer " ++ token)]
    else [("Content-Type", "application/json")],
    [("user_id_type", "open_id")], .jsonBody (.obj (lookupBody c))⟩

/-- The request `_send_message` issues for a given bearer token (nonempty in
every enabled run), recipient, message type and content. -/
def sendRequest (token : String) (user_id : Json) (msg_type : String)
    (content : Json) : Request :=
  ⟨MESSAGE_API,
    [("Content-Type", "application/json"), ("authorization", "Bearer " ++ token)],
    [("receive_id_type", "open_id")],
    .jsonBody (.obj [("receive_id", user_id), ("msg_type", .str msg_type),
                     ("content", json_dumps_parsed content)])⟩

/-- The multipart request `_post_file` issues against the generic file-upload
endpoint. -/
def uploadFileRequest (token file_type filename content : String) : Request :=
  ⟨UPLOAD_FILE_API,
    [("Content-Type", MULTIPART_CONTENT_TYPE), ("authorization", "Bearer " ++ token)],
    [],
    .multipart [("file_type", .field file_type), ("file", .filePart filename content),
                ("filename", .field filename)]⟩

/-- The multipart request `_post_file` issues against the image-upload
endpoint. -/
def uploadImageRequest (token filename content : String) : Request :=
  ⟨UPLOAD_IMAGE_API,
    [("Content-Type", MULTIPART_CONTENT_TYPE), ("authorization", "Bearer " ++ token)],
    [],
    .multipart [("image_type", .field "message"), ("image", .filePart filename content)]⟩

/-- How many of the issued requests went to a given endpoint. -/
def countTo (url : String) (reqs : List Request) : Nat :=
  (reqs.filter (fun r => r.url == url)).length

/-- A fully populated configuration (everything truthy). -/
def cfgFull : Config :=
  ⟨some "app-id", some "app-secret", some "13800138000", some "user@example.com",
   some "ou_123"⟩

/-- A configuration resolving the recipient by phone (no open_id). -/
def cfgPhone : Config :=
  ⟨some "app-id", some "app-secret", some "13800138000", none, none⟩

/-- The empty environment: nothing set, bot disabled. -/
def cfgNone : Config := ⟨none, none, none, none, none⟩

/-- A well-formed success envelope carrying every field any call reads. -/
def okEnvelope : Envelope :=
  ⟨0, "ok",
   [("tenant_access_token", .str "T"), ("expire", .num 7200),
    ("data", .obj [("user_list", .arr [.obj [("user_id", .str "ou_abc")]]),
                   ("image_key", .str "img-k"), ("file_key", .str "file-k")])]⟩

/-- A server that answers every request with `okEnvelope`. -/
def okResponder : Request → Envelope := fun _ => okEnvelope

/-- A server that rejects every request with `{code: 5, msg: "bad request"}`. -/
def badResponder : Request → Envelope := fun _ => ⟨5, "bad request", []⟩

/-- A server whose every reply is a user-lookup success with one matching
record. -/
def lookupResponder : Request → Envelope := fun _ =>
  ⟨0, "ok", [("data", .obj [("user_list",
     .arr ([[("user_id", Json.str "ou_abc")]].map Json.obj))])]⟩

/-- A concrete available image-processing capability. -/
def cv0 : Cv2 := ⟨fun _ => "first-frame-jpg"⟩

/-- A cached token that is valid at any `now ≤ 100`. -/
def ttValid : TenantToken := ⟨"T", 100⟩

/-- The empty token cache. -/
def ttEmpty : TenantToken := ⟨"", 0⟩

/-- Whether a user record (a dict) contains a `user_id` key. -/
def hasUserId (u : List (String × Json)) : Bool := (dictGet u "user_id").isSome

/-- A responder whose every reply is accepted by `_post` and carries the
fields each caller reads: `code = 0`, a string `tenant_access_token`, an
integer `expire`, and a dict `data`. -/
def goodResponder (responder : Request → Envelope) : Prop :=
  ∀ req, (responder req).code = 0
    ∧ (∃ s, dictGet (responder req).rest "tenant_access_token" = some (.str s))
    ∧ (∃ n, dictGet (responder req).rest "expire" = some (.num n))
    ∧ (∃ d, dictGet (responder req).rest "data" = some (.obj d))

/-- The value `_post` yields for a reply: the envelope on `code = 0`, the
`Message failed` `ValueError` otherwise. -/
def postResult (resp : Envelope) : Except PyError Envelope :=
  if resp.code ≠ 0 then .error (.valueError ("Message failed: " ++ resp.msg))
  else .ok resp

/-- The value `_post_file` yields for a reply: `resp["data"]` on `code = 0`,
the `Message failed` `ValueError` otherwise. -/
def postFileResult (resp : Envelope) : Except PyError Json :=
  if resp.code ≠ 0 then .error (.valueError ("Message failed: " ++ resp.msg))
  else envGet resp "data"

theorem buildRequest_none_auth (url token : String)
    (params : List (String × String)) (body : Body) (h : token ≠ "") :
    buildRequest url token none params body
      = ⟨url, [("Content-Type", "application/json"),
               ("authorization", "Bearer " ++ token)], params, body⟩ := by
  simp [buildRequest, setKey, h]

theorem buildRequest_multipart_auth (url token : String) (body : Body)
    (h : token ≠ "") :
    buildRequest url token (some [("Content-Type", MULTIPART_CONTENT_TYPE)]) [] body
      = ⟨url, [("Content-Type", MULTIPART_CONTENT_TYPE),
               ("authorization", "Bearer " ++ token)], [], body⟩ := by
  simp [buildRequest, setKey, h, MULTIPART_CONTENT_TYPE]

theorem tokenGet_cached (c : Config) (responder : Request → Envelope) (now : Int)
    (tt : TenantToken) (h : ¬ (tt.token = "" ∨ tt.expire_at < now)) :
    TenantToken.get c responder now tt = (.ok tt.token, tt, []) := by
  simp [TenantToken.get, h]

theorem _post_req (responder : Request → Envelope) (url token : String)
    (headers : Option (List (String × String))) (params : List (String × String))
    (body : Body) :
    (_post responder url token headers params body).2
      = buildRequest url token headers params body := by
  simp only [_post]
  split <;> rfl

theorem _post_ok (responder : Request → Envelope) (url token : String)
    (headers : Option (List (String × String))) (params : List (String × String))
    (body : Body) (h : (responder (buildRequest url token headers params body)).code = 0) :
    _post responder url token headers params body
      = (.ok (responder (buildRequest url token headers params body)),
         buildRequest url token headers params body) := by
  simp [_post, h]

theorem _post_fail (responder : Request → Envelope) (url token : String)
    (headers : Option (List (String × String))) (params : List (String × String))
    (body : Body)
    (h : (responder (buildRequest url token headers params body)).code ≠ 0) :
    _post responder url token headers params body
      = (.error (.valueError ("Message failed: "
           ++ (responder (buildRequest url token headers params body)).msg)),
         buildRequest url token headers params body) := by
  simp [_post, h]

theorem send_message_valid (c : Config) (responder : Request → Envelope)
    (now : Int) (tt : TenantToken) (user_id : Json) (msg_type : String)
    (content : Json) (h : ¬ (tt.token = "" ∨ tt.expire_at < now)) :
    FeiShuBot._send_message c responder now tt user_id msg_type content
      = (postResult (responder (sendRequest tt.token user_id msg_type content)),
         tt, [sendRequest tt.token user_id msg_type content]) := by
  have hne : tt.token ≠ "" := fun hh => h (Or.inl hh)
  unfold FeiShuBot._send_message
  rw [tokenGet_cached c responder now tt h]
  dsimp only
  rcases hp : _post responder MESSAGE_API tt.token none [("receive_id_type", "open_id")]
      (.jsonBody (.obj [("receive_id", user_id), ("msg_type", .str msg_type),
                        ("content", json_dumps_parsed content)])) with ⟨r, req⟩
  have hreq := _post_req responder MESSAGE_API tt.token none
      [("receive_id_type", "open_id")]
      (.jsonBody (.obj [("receive_id", user_id), ("msg_type", .str msg_type),
                        ("content", json_dumps_parsed content)]))
  rw [hp] at hreq
  have hbuild : buildRequest MESSAGE_API tt.token none [("receive_id_type", "open_id")]
      (.jsonBody (.obj [("receive_id", user_id), ("msg_type", .str msg_type),
                        ("content", json_dumps_parsed content)]))
      = sendRequest tt.token user_id msg_type content := by
    rw [buildRequest_none_auth _ _ _ _ hne]; rfl
  have hr : r = postResult (responder (sendRequest tt.token user_id msg_type content)) := by
    have h1 : (_post responder MESSAGE_API tt.token none [("receive_id_type", "open_id")]
        (.jsonBody (.obj [("receive_id", user_id), ("msg_type", .str msg_type),
                          ("content", json_dumps_parsed content)]))).1 = r := by
      rw [hp]
    rw [← h1]
    simp only [_post, hbuild, postResult]
    split <;> rfl
  have hreq2 : req = sendRequest tt.token user_id msg_type content := by
    simpa [hbuild] using hreq
  rw [hr, hreq2]
  simp

theorem post_file_image_valid (c : Config) (responder : Request → Envelope)
    (now : Int) (tt : TenantToken) (file : PyFile) (filename0 : String)
    (h : ¬ (tt.token = "" ∨ tt.expire_at < now)) :
    FeiShuBot._post_file c responder now tt "image" file filename0
      = (postFileResult
           (responder (uploadImageRequest tt.token (uploadFilename file filename0) file.content)),
         tt, [uploadImageRequest tt.token (uploadFilename file filename0) file.content]) := by
  have hne : tt.token ≠ "" := fun hh => h (Or.inl hh)
  unfold FeiShuBot._post_file
  simp only [reduceIte]
  rw [tokenGet_cached c responder now tt h]
  dsimp only
  have hbuild : buildRequest UPLOAD_IMAGE_API tt.token
      (some [("Content-Type", MULTIPART_CONTENT_TYPE)]) []
      (.multipart [("image_type", .field "message"),
                   ("image", .filePart (uploadFilename file filename0) file.content)])
      = uploadImageRequest tt.token (uploadFilename file filename0) file.content := by
    rw [buildRequest_multipart_auth _ _ _ hne]; rfl
  by_cases hc : (responder (uploadImageRequest tt.token (uploadFilename file filename0) file.content)).code = 0
  · rw [_post_ok responder _ _ _ _ _ (by rw [hbuild]; exact hc)]
    rw [hbuild]
    simp only [postFileResult, hc]
    cases hdata : envGet (responder (uploadImageRequest tt.token (uploadFilename file filename0) file.content)) "data" <;> simp [hdata]
  · rw [_post_fail responder _ _ _ _ _ (by rw [hbuild]; exact hc)]
    rw [hbuild]
    simp [postFileResult, hc]

theorem post_file_other_valid (c : Config) (responder : Request → Envelope)
    (now : Int) (tt : TenantToken) (file_type : String) (file : PyFile)
    (filename0 : String) (h : ¬ (tt.token = "" ∨ tt.expire_at < now))
    (hft : file_type ≠ "image") :
    FeiShuBot._post_file c responder now tt file_type file filename0
      = (postFileResult
           (responder (uploadFileRequest tt.token file_type (uploadFilename file filename0) file.content)),
         tt, [uploadFileRequest tt.token file_type (uploadFilename file filename0) file.content]) := by
  have hne : tt.token ≠ "" := fun hh => h (Or.inl hh)
  unfold FeiShuBot._post_file
  simp only [if_neg hft]
  rw [tokenGet_cached c responder now tt h]
  dsimp only
  have hbuild : buildRequest UPLOAD_FILE_API tt.token
      (some [("Content-Type", MULTIPART_CONTENT_TYPE)]) []
      (.multipart [("file_type", .field file_type),
                   ("file", .filePart (uploadFilename file filename0) file.content),
                   ("filename", .field (uploadFilename file filename0))])
      = uploadFileRequest tt.token file_type (uploadFilename file filename0) file.content := by
    rw [buildRequest_multipart_auth _ _ _ hne]; rfl
  by_cases hc : (responder (uploadFileRequest tt.token file_type (uploadFilename file filename0) file.content)).code = 0
  · rw [_post_ok responder _ _ _ _ _ (by rw [hbuild]; exact hc)]
    rw [hbuild]
    simp only [postFileResult, hc]
    cases hdata : envGet (responder (uploadFileRequest tt.token file_type (uploadFilename file filename0) file.content)) "data" <;> simp [hdata]
  · rw [_post_fail responder _ _ _ _ _ (by rw [hbuild]; exact hc)]
    rw [hbuild]
    simp [postFileResult, hc]

theorem authRequest_build (c : Config) :
    buildRequest TENANT_TOKEN_API "" none []
        (.jsonBody (.obj [("app_id", optJson c.FEISHU_APP_ID),
                          ("app_secret", optJson c.FEISHU_APP_SECRET)]))
      = authRequest c := by
  simp [buildRequest, authRequest]

theorem lookupRequest_build (c : Config) (token : String) :
    buildRequest USER_ID_API token none [("user_id_type", "open_id")]
        (.jsonBody (.obj (lookupBody c)))
      = lookupRequest c token := by
  by_cases h : token = "" <;> simp [buildRequest, lookupRequest, setKey, h]

theorem setKey_mem (kvs : List (String × String)) (k v : String) :
    (k, v) ∈ setKey kvs k v := by
  unfold setKey
  split
  · rename_i hany
    rw [List.any_eq_true] at hany
    obtain ⟨x, hx, hxk⟩ := hany
    rw [List.mem_map]
    exact ⟨x, hx, by simp [hxk]⟩
  · simp

theorem postResult_good (responder : Request → Envelope)
    (hg : goodResponder responder) (req : Request) :
    postResult (responder req) = .ok (responder req) := by
  simp [postResult, (hg req).1]

theorem postFileResult_good (responder : Request → Envelope)
    (hg : goodResponder responder) (req : Request) :
    ∃ d, postFileResult (responder req) = .ok (.obj d)
      ∧ dictGet (responder req).rest "data" = some (.obj d) := by
  obtain ⟨hc, -, -, d, hd⟩ := hg req
  exact ⟨d, by simp [postFileResult, hc, envGet, hd], hd⟩

theorem findUserId_map_obj (us : List (List (String × Json))) :
    findUserId (us.map Json.obj)
      = .ok ((us.find? hasUserId).bind (fun u => dictGet u "user_id")) := by
  induction us with
  | nil => rfl
  | cons u rest ih =>
      cases hd : dictGet u "user_id" with
      | none => simp [findUserId, hd, ih, List.find?_cons, hasUserId]
      | some v => simp [findUserId, hd, List.find?_cons, hasUserId]

theorem request_token_trace (c : Config) (responder : Request → Envelope)
    (now : Int) (tt : TenantToken) :
    (TenantToken.request_token c responder now tt).2.2 = [authRequest c] := by
  unfold TenantToken.request_token
  rcases hp : _post responder TENANT_TOKEN_API "" none []
      (.jsonBody (.obj [("app_id", optJson c.FEISHU_APP_ID),
                        ("app_secret", optJson c.FEISHU_APP_SECRET)])) with ⟨r, req⟩
  have hreq : req = authRequest c := by
    have h2 := _post_req responder TENANT_TOKEN_API "" none []
      (.jsonBody (.obj [("app_id", optJson c.FEISHU_APP_ID),
                        ("app_secret", optJson c.FEISHU_APP_SECRET)]))
    rw [hp] at h2
    rw [show req = (r, req).2 from rfl, h2, authRequest_build]
  subst hreq
  cases r with
  | error e => rfl
  | ok resp =>
      dsimp only
      split <;> first
      | rfl
      | (split <;> rfl)

theorem tokenGet_trace (c : Config) (responder : Request → Envelope) (now : Int)
    (tt : TenantToken) :
    (TenantToken.get c responder now tt).2.2 = []
    ∨ (TenantToken.get c responder now tt).2.2 = [authRequest c] := by
  unfold TenantToken.get
  split
  · rcases hq : TenantToken.request_token c responder now tt with ⟨r, tt1, reqs⟩
    have := request_token_trace c responder now tt
    rw [hq] at this
    cases r <;> simpa using Or.inr this
  · exact Or.inl rfl

theorem get_open_id_trace (c : Config) (responder : Request → Envelope)
    (token : String) :
    (get_open_id c responder token).2 = []
    ∨ (get_open_id c responder token).2 = [lookupRequest c token] := by
  unfold get_open_id
  split
  · exact Or.inl rfl
  · rcases hp : _post responder USER_ID_API token none [("user_id_type", "open_id")]
        (.jsonBody (.obj (lookupBody c))) with ⟨r, req⟩
    have hreq : req = lookupRequest c token := by
      have h2 := _post_req responder USER_ID_API token none [("user_id_type", "open_id")]
        (.jsonBody (.obj (lookupBody c)))
      rw [hp] at h2
      rw [show req = (r, req).2 from rfl, h2, lookupRequest_build]
    subst hreq
    cases r <;> exact Or.inr rfl

/-- C5: `ENABLE` is true iff app id and secret are both present (truthy) and
at least one of open_id, phone, email is present; unsetting the app id, the
app secret, or all recipient fields makes it false. -/
theorem C5_enable_iff (c : Config) :
    (ENABLE c = true ↔
      (truthy c.FEISHU_APP_ID = true ∧ truthy c.FEISHU_APP_SECRET = true ∧
        (truthy c.FEISHU_OPEN_ID = true ∨ truthy c.FEISHU_PHONE = true ∨
         truthy c.FEISHU_EMAIL = true)))
    ∧ ENABLE ⟨none, c.FEISHU_APP_SECRET, c.FEISHU_PHONE, c.FEISHU_EMAIL,
        c.FEISHU_OPEN_ID⟩ = false
    ∧ ENABLE ⟨c.FEISHU_APP_ID, none, c.FEISHU_PHONE, c.FEISHU_EMAIL,
        c.FEISHU_OPEN_ID⟩ = false
    ∧ ENABLE ⟨c.FEISHU_APP_ID, c.FEISHU_APP_SECRET, none, none, none⟩ = false := by
  refine ⟨?_, ?_, ?_, ?_⟩
  · simp only [ENABLE, Bool.and_eq_true, Bool.or_eq_true]
    tauto
  · simp [ENABLE, truthy]
  · simp [ENABLE, truthy]
  · simp [ENABLE, truthy]

/-- C5 witness: the fully populated configuration is enabled and every
single-field removal disables it. -/
theorem C5_enable_iff_witness :
    (ENABLE cfgFull = true ↔
      (truthy cfgFull.FEISHU_APP_ID = true ∧ truthy cfgFull.FEISHU_APP_SECRET = true ∧
        (truthy cfgFull.FEISHU_OPEN_ID = true ∨ truthy cfgFull.FEISHU_PHONE = true ∨
         truthy cfgFull.FEISHU_EMAIL = true)))
    ∧ ENABLE ⟨none, cfgFull.FEISHU_APP_SECRET, cfgFull.FEISHU_PHONE,
        cfgFull.FEISHU_EMAIL, cfgFull.FEISHU_OPEN_ID⟩ = false
    ∧ ENABLE ⟨cfgFull.FEISHU_APP_ID, none, cfgFull.FEISHU_PHONE,
        cfgFull.FEISHU_EMAIL, cfgFull.FEISHU_OPEN_ID⟩ = false
    ∧ ENABLE ⟨cfgFull.FEISHU_APP_ID, cfgFull.FEISHU_APP_SECRET, none, none,
        none⟩ = false :=
  C5_enable_iff cfgFull

/-- C1: when the enabled flag is false, construction returns before recipient
resolution (no requests, no error, no `user_id`), `__getattribute__` hands any
non-`token` attribute name the disabled wrapper, and calling that wrapper
logs exactly one warning naming the attempted operation, performs no network
call, does not raise, and returns Python `None`. -/
theorem C1_disabled_noop (c : Config) (h : ENABLE c = false) (name : String)
    (hname : name ≠ "token") (responder : Request → Envelope) (now : Int)
    (tt : TenantToken) :
    FeiShuBot.init c responder now tt = (.ok none, tt, [])
    ∧ FeiShuBot.getattribute (ENABLE c) name = .disabledWrap name
    ∧ FeiShuBot.callDisabledWrap name
        = (.ok none, [], ["FeiShuBot is disabled, " ++ name ++ " is unavailable."]) := by
  refine ⟨?_, ?_, rfl⟩
  · simp [FeiShuBot.init, h]
  · simp [FeiShuBot.getattribute, h, hname]

/-- C1 witness: the empty environment is disabled; `send_text` is gated. -/
theorem C1_disabled_noop_witness :
    ENABLE cfgNone = false ∧ ("send_text" : String) ≠ "token"
    ∧ (FeiShuBot.init cfgNone okResponder 0 ttEmpty = (.ok none, ttEmpty, [])
       ∧ FeiShuBot.getattribute (ENABLE cfgNone) "send_text" = .disabledWrap "send_text"
       ∧ FeiShuBot.callDisabledWrap "send_text"
           = (.ok none, [], ["FeiShuBot is disabled, send_text is unavailable."])) :=
  ⟨by decide, by decide,
   C1_disabled_noop cfgNone (by decide) "send_text" (by decide) okResponder 0 ttEmpty⟩

/-- C4: `_post` raises `ValueError("Message failed: <server message>")` when
the reply code is nonzero and returns the envelope when it is zero; the
bearer authorization header is in the sent request whenever a token is
supplied, and with no token the caller headers (or the JSON default) pass
through unchanged. -/
theorem C4_post_contract (responder : Request → Envelope) (url token : String)
    (headers : Option (List (String × String))) (params : List (String × String))
    (body : Body) :
    ((responder ((_post responder url token headers params body).2)).code ≠ 0 →
      (_post responder url token headers params body).1
        = .error (.valueError ("Message failed: "
            ++ (responder ((_post responder url token headers params body).2)).msg)))
    ∧ ((responder ((_post responder url token headers params body).2)).code = 0 →
      (_post responder url token headers params body).1
        = .ok (responder ((_post responder url token headers params body).2)))
    ∧ (token ≠ "" →
        ("authorization", "Bearer " ++ token)
          ∈ (_post responder url token headers params body).2.headers)
    ∧ (token = "" →
        (_post responder url token headers params body).2.headers
          = headers.getD [("Content-Type", "application/json")]) := by
  have hreq := _post_req responder url token headers params body
  rw [hreq]
  refine ⟨?_, ?_, ?_, ?_⟩
  · intro hc
    rw [_post_fail responder url token headers params body hc]
  · intro hc
    rw [_post_ok responder url token headers params body hc]
  · intro hne
    simp only [buildRequest, if_pos hne]
    exact setKey_mem _ _ _
  · intro h0
    simp [buildRequest, h0]

/-- C4 witness: against a server replying `{code: 5, msg: "bad request"}`,
`_post` raises with the server text, and the bearer header is attached for
the nonempty token. -/
theorem C4_post_contract_witness :
    (_post badResponder MESSAGE_API "T" none [] (.jsonBody .null)).1
      = .error (.valueError ("Message failed: bad request"))
    ∧ ("authorization", "Bearer T")
        ∈ (_post badResponder MESSAGE_API "T" none [] (.jsonBody .null)).2.headers :=
  ⟨(C4_post_contract badResponder MESSAGE_API "T" none [] (.jsonBody .null)).1
     (by decide),
   (C4_post_contract badResponder MESSAGE_API "T" none [] (.jsonBody .null)).2.2.1
     (by decide)⟩

/-- C7: `send_card` builds the fixed wide-screen config and one markdown
element; the blue `plain_text` header block is appended exactly when a
non-empty header is given, and is absent when the header is omitted
(defaulted to `""`); the built content is what the single send request
carries, with `msg_type "interactive"`. -/
theorem C7_card_content (message header : String) :
    (header ≠ "" → cardContent message header = Json.obj
      [("config", .obj [("wide_screen_mode", .bool true)]),
       ("elements", .arr [.obj [("tag", .str "markdown"), ("content", .str message)]]),
       ("header", .obj [("title", .obj [("tag", .str "plain_text"),
                                        ("content", .str header)]),
                        ("template", .str "blue")])])
    ∧ (header = "" → cardContent message header = Json.obj
      [("config", .obj [("wide_screen_mode", .bool true)]),
       ("elements", .arr [.obj [("tag", .str "markdown"), ("content", .str message)]])])
    ∧ (∀ (c : Config) (responder : Request → Envelope) (now : Int)
        (tt : TenantToken) (user_id : Json),
        ¬ (tt.token = "" ∨ tt.expire_at < now) →
        (FeiShuBot.send_card c responder now tt user_id message header).2.2
          = [sendRequest tt.token user_id "interactive" (cardContent message header)]) := by
  refine ⟨?_, ?_, ?_⟩
  · intro hh
    simp [cardContent, hh]
  · intro hh
    simp [cardContent, hh]
  · intro c responder now tt user_id hvalid
    unfold FeiShuBot.send_card
    rw [send_message_valid c responder now tt user_id "interactive"
        (cardContent message header) hvalid]
    cases postResult (responder (sendRequest tt.token user_id "interactive"
        (cardContent message header))) <;> rfl

/-- C7 witness: header `"H"` with body `"**b**"` yields both blocks; the
empty header yields no header block; the card request goes out as built. -/
theorem C7_card_content_witness :
    (("H" : String) ≠ "" → cardContent "**b**" "H" = Json.obj
      [("config", .obj [("wide_screen_mode", .bool true)]),
       ("elements", .arr [.obj [("tag", .str "markdown"), ("content", .str "**b**")]]),
       ("header", .obj [("title", .obj [("tag", .str "plain_text"),
                                        ("content", .str "H")]),
                        ("template", .str "blue")])])
    ∧ (("H" : String) = "" → cardContent "**b**" "H" = Json.obj
      [("config", .obj [("wide_screen_mode", .bool true)]),
       ("elements", .arr [.obj [("tag", .str "markdown"), ("content", .str "**b**")]])])
    ∧ (∀ (c : Config) (responder : Request → Envelope) (now : Int)
        (tt : TenantToken) (user_id : Json),
        ¬ (tt.token = "" ∨ tt.expire_at < now) →
        (FeiShuBot.send_card c responder now tt user_id "**b**" "H").2.2
          = [sendRequest tt.token user_id "interactive" (cardContent "**b**" "H")]) :=
  C7_card_content "**b**" "H"

/-- C9: with a valid cached token, `send_text msg` issues exactly the one
message-send request, whose `msg_type` is `"text"` and whose `content`
field, parsed, is `{"text": msg}`. -/
theorem C9_send_text_request (c : Config) (responder : Request → Envelope)
    (now : Int) (tt : TenantToken) (user_id : Json) (msg : String)
    (h : ¬ (tt.token = "" ∨ tt.expire_at < now)) :
    (FeiShuBot.send_text c responder now tt user_id msg).2.2
      = [sendRequest tt.token user_id "text" (.obj [("text", .str msg)])]
    ∧ (sendRequest tt.token user_id "text" (.obj [("text", .str msg)])).url
        = MESSAGE_API
    ∧ (sendRequest tt.token user_id "text" (.obj [("text", .str msg)])).body
        = .jsonBody (.obj [("receive_id", user_id), ("msg_type", .str "text"),
            ("content", json_dumps_parsed (.obj [("text", .str msg)]))]) := by
  refine ⟨?_, rfl, rfl⟩
  unfold FeiShuBot.send_text
  rw [send_message_valid c responder now tt user_id "text"
      (.obj [("text", .str msg)]) h]

/-- C9 witness: sending `"hello"` with the cached valid token issues the one
request with parsed content `{"text": "hello"}`. -/
theorem C9_send_text_request_witness :
    ¬ ((ttValid.token = "" ∨ ttValid.expire_at < 0))
    ∧ ((FeiShuBot.send_text cfgFull okResponder 0 ttValid (.str "ou_123") "hello").2.2
        = [sendRequest ttValid.token (.str "ou_123") "text" (.obj [("text", .str "hello")])]
       ∧ (sendRequest ttValid.token (.str "ou_123") "text" (.obj [("text", .str "hello")])).url
           = MESSAGE_API
       ∧ (sendRequest ttValid.token (.str "ou_123") "text" (.obj [("text", .str "hello")])).body
           = .jsonBody (.obj [("receive_id", .str "ou_123"), ("msg_type", .str "text"),
               ("content", json_dumps_parsed (.obj [("text", .str "hello")]))])) :=
  ⟨by decide,
   C9_send_text_request cfgFull okResponder 0 ttValid (.str "ou_123") "hello" (by decide)⟩

/-- C2 counterexample: a cached token `"t"` whose expiry (5) is at/after the
current time (5) — the claim's refresh condition — yet the getter issues
zero authentication calls and returns the cached token unchanged (the code
refreshes only when the expiry is strictly before now). -/
theorem C2_token_refresh_counterexample :
    ((TenantToken.mk "t" 5).expire_at ≥ 5 ∧ (TenantToken.mk "t" 5).token ≠ "")
    ∧ TenantToken.get cfgFull okResponder 5 (TenantToken.mk "t" 5)
        = (.ok "t", TenantToken.mk "t" 5, []) :=
  ⟨⟨by decide, by decide⟩, rfl⟩

/-- C2 amended: a token request with no token cached, or whose cached
expiry is strictly before the current time, triggers exactly one
authentication call, stores the returned token and sets expiry to the
returned TTL plus now; every other request triggers zero network calls and
returns the cached token unchanged. -/
theorem C2_token_refresh (c : Config) (responder : Request → Envelope)
    (now : Int) (tt : TenantToken) (s : String) (n : Int)
    (hcode : (responder (authRequest c)).code = 0)
    (htok : dictGet (responder (authRequest c)).rest "tenant_access_token"
        = some (.str s))
    (hexp : dictGet (responder (authRequest c)).rest "expire" = some (.num n)) :
    ((tt.token = "" ∨ tt.expire_at < now) →
      TenantToken.get c responder now tt = (.ok s, ⟨s, n + now⟩, [authRequest c]))
    ∧ (¬ (tt.token = "" ∨ tt.expire_at < now) →
      TenantToken.get c responder now tt = (.ok tt.token, tt, [])) := by
  constructor
  · intro hcond
    unfold TenantToken.get
    rw [if_pos hcond]
    unfold TenantToken.request_token
    rw [_post_ok responder _ _ _ _ _ (by rw [authRequest_build]; exact hcode)]
    rw [authRequest_build]
    dsimp only
    simp [envGet, htok, hexp]
  · exact tokenGet_cached c responder now tt

/-- C2 witness: with the empty cache and a server returning token `"T"` with
TTL 7200, the first request at time 0 issues one auth call and caches
`("T", 7200)`; a request at time 5 on the valid cache issues none. -/
theorem C2_token_refresh_witness :
    (okResponder (authRequest cfgFull)).code = 0
    ∧ dictGet (okResponder (authRequest cfgFull)).rest "tenant_access_token"
        = some (.str "T")
    ∧ dictGet (okResponder (authRequest cfgFull)).rest "expire" = some (.num 7200)
    ∧ ((ttEmpty.token = "" ∨ ttEmpty.expire_at < 0) →
        TenantToken.get cfgFull okResponder 0 ttEmpty
          = (.ok "T", ⟨"T", 7200 + 0⟩, [authRequest cfgFull]))
    ∧ (¬ (ttValid.token = "" ∨ ttValid.expire_at < 5) →
        TenantToken.get cfgFull okResponder 5 ttValid = (.ok "T", ttValid, [])) :=
  ⟨by decide, rfl, rfl,
   (C2_token_refresh cfgFull okResponder 0 ttEmpty "T" 7200 (by decide) rfl rfl).1,
   (C2_token_refresh cfgFull okResponder 5 ttValid "T" 7200 (by decide) rfl rfl).2⟩

/-- C8: when no filename is supplied, it is the basename of the stream's
name for an opened binary stream and the literal `"file"` otherwise; image
uploads issue exactly one request to the image-upload endpoint with fields
`{image_type: "message", image: (filename, bytes)}`, and every other kind
issues one to the file-upload endpoint with fields
`{file_type, file: (filename, bytes), filename}`. -/
theorem C8_upload_dispatch (c : Config) (responder : Request → Envelope)
    (now : Int) (tt : TenantToken) (file : PyFile) (file_type filename0 : String)
    (h : ¬ (tt.token = "" ∨ tt.expire_at < now)) :
    (filename0 = "" →
      (∀ nm cnt, file = .stream nm cnt → uploadFilename file filename0 = basename nm)
      ∧ ((∀ nm cnt, file ≠ .stream nm cnt) → uploadFilename file filename0 = "file"))
    ∧ ((FeiShuBot._post_file c responder now tt "image" file filename0).2.2
        = [uploadImageRequest tt.token (uploadFilename file filename0) file.content])
    ∧ (file_type ≠ "image" →
        (FeiShuBot._post_file c responder now tt file_type file filename0).2.2
          = [uploadFileRequest tt.token file_type (uploadFilename file filename0)
               file.content]) := by
  refine ⟨?_, ?_, ?_⟩
  · intro h0
    constructor
    · intro nm cnt heq
      subst heq
      simp [uploadFilename, h0]
    · intro hns
      cases file with
      | stream nm cnt => exact absurd rfl (hns nm cnt)
      | bytes cnt => simp [uploadFilename, h0]
      | strFile s => simp [uploadFilename, h0]
  · rw [post_file_image_valid c responder now tt file filename0 h]
  · intro hft
    rw [post_file_other_valid c responder now tt file_type file filename0 h hft]

/-- C8 witness: an opened stream named `/tmp/a.mp4` with no supplied
filename uploads as `a.mp4`; kind `mp4` goes to the file endpoint, kind
`image` to the image endpoint. -/
theorem C8_upload_dispatch_witness :
    ¬ ((ttValid.token = "" ∨ ttValid.expire_at < 0))
    ∧ ((("" : String) = "" →
        (∀ nm cnt, PyFile.stream "/tmp/a.mp4" "vid" = .stream nm cnt →
           uploadFilename (.stream "/tmp/a.mp4" "vid") "" = basename nm)
        ∧ ((∀ nm cnt, PyFile.stream "/tmp/a.mp4" "vid" ≠ .stream nm cnt) →
           uploadFilename (.stream "/tmp/a.mp4" "vid") "" = "file"))
      ∧ ((FeiShuBot._post_file cfgFull okResponder 0 ttValid "image"
            (.stream "/tmp/a.mp4" "vid") "").2.2
          = [uploadImageRequest ttValid.token
               (uploadFilename (.stream "/tmp/a.mp4" "vid") "") "vid"])
      ∧ (("mp4" : String) ≠ "image" →
          (FeiShuBot._post_file cfgFull okResponder 0 ttValid "mp4"
             (.stream "/tmp/a.mp4" "vid") "").2.2
            = [uploadFileRequest ttValid.token "mp4"
                 (uploadFilename (.stream "/tmp/a.mp4" "vid") "") "vid"])) :=
  ⟨by decide,
   C8_upload_dispatch cfgFull okResponder 0 ttValid (.stream "/tmp/a.mp4" "vid")
     "mp4" "" (by decide)⟩

theorem countTo_append (url : String) (a b : List Request) :
    countTo url (a ++ b) = countTo url a + countTo url b := by
  simp [countTo, List.filter_append]

theorem countTo_authRequest (c : Config) :
    countTo USER_ID_API [authRequest c] = 0 := by
  simp [countTo, authRequest, USER_ID_API, TENANT_TOKEN_API]

theorem countTo_lookupRequest (c : Config) (token : String) :
    countTo USER_ID_API [lookupRequest c token] = 1 := by
  simp [countTo, lookupRequest, USER_ID_API]

theorem countTo_tokenGet (c : Config) (responder : Request → Envelope)
    (now : Int) (tt : TenantToken) :
    countTo USER_ID_API (TenantToken.get c responder now tt).2.2 = 0 := by
  rcases tokenGet_trace c responder now tt with h | h <;> rw [h]
  · rfl
  · exact countTo_authRequest c

theorem countTo_get_open_id (c : Config) (responder : Request → Envelope)
    (token : String) :
    countTo USER_ID_API (get_open_id c responder token).2 ≤ 1 := by
  rcases get_open_id_trace c responder token with h | h <;> rw [h]
  · exact Nat.zero_le 1
  · rw [countTo_lookupRequest c token]

/-- C3: recipient resolution raises the configuration `ValueError` before any
network call when neither phone nor email is configured; otherwise it issues
the one lookup request and yields the `user_id` of the first user record
containing one, raising the lookup `ValueError` when no record has one.  At
construction it runs only when `open_id` is not configured (a truthy
`open_id` is used directly with no request), and the lookup endpoint is hit
at most once per construction, unconditionally. -/
theorem C3_recipient_resolution (c : Config) (responder : Request → Envelope) :
    (∀ token, truthy c.FEISHU_PHONE = false → truthy c.FEISHU_EMAIL = false →
      get_open_id c responder token = (.error (.valueError configErrMsg), []))
    ∧ (∀ (token m : String) (us : List (List (String × Json)))
         (u : List (String × Json)),
        responder (lookupRequest c token)
          = ⟨0, m, [("data", .obj [("user_list", .arr (us.map Json.obj))])]⟩ →
        (truthy c.FEISHU_PHONE || truthy c.FEISHU_EMAIL) = true →
        us.find? hasUserId = some u →
        ∃ v, dictGet u "user_id" = some v
          ∧ get_open_id c responder token = (.ok v, [lookupRequest c token]))
    ∧ (∀ (token m : String) (us : List (List (String × Json))),
        responder (lookupRequest c token)
          = ⟨0, m, [("data", .obj [("user_list", .arr (us.map Json.obj))])]⟩ →
        (truthy c.FEISHU_PHONE || truthy c.FEISHU_EMAIL) = true →
        us.find? hasUserId = none →
        get_open_id c responder token
          = (.error (.valueError ("Query open_id failed: no user_id found. body="
               ++ pyRepr (.obj (lookupBody c)))), [lookupRequest c token]))
    ∧ (∀ (now : Int) (tt : TenantToken), truthy c.FEISHU_OPEN_ID = true →
        ENABLE c = true →
        FeiShuBot.init c responder now tt
          = (.ok (some (.str (c.FEISHU_OPEN_ID.getD ""))), tt, []))
    ∧ (∀ (now : Int) (tt : TenantToken),
        countTo USER_ID_API (FeiShuBot.init c responder now tt).2.2 ≤ 1) := by
  refine ⟨?_, ?_, ?_, ?_, ?_⟩
  · intro token hp he
    unfold get_open_id
    rw [if_pos (by simp [hp, he])]
  · intro token m us u hresp hpe hfind
    have hu : hasUserId u = true := List.find?_some hfind
    rw [hasUserId, Option.isSome_iff_exists] at hu
    obtain ⟨v, hv⟩ := hu
    refine ⟨v, hv, ?_⟩
    unfold get_open_id
    rw [if_neg (by simp [hpe])]
    rw [_post_ok responder _ _ _ _ _ (by rw [lookupRequest_build, hresp])]
    rw [lookupRequest_build, hresp]
    dsimp only
    simp only [dictGet] at hv
    simp [bind, Except.bind, envGet, jsonGet, jsonItems, dictGet,
      findUserId_map_obj, hfind, hv, pure, Except.pure]
  · intro token m us hresp hpe hfind
    unfold get_open_id
    rw [if_neg (by simp [hpe])]
    rw [_post_ok responder _ _ _ _ _ (by rw [lookupRequest_build, hresp])]
    rw [lookupRequest_build, hresp]
    dsimp only
    simp [bind, Except.bind, envGet, jsonGet, jsonItems, dictGet,
      findUserId_map_obj, hfind, pure, Except.pure, throw, throwThe,
      MonadExceptOf.throw]
  · intro now tt ho he
    unfold FeiShuBot.init
    rw [if_neg (by simp [he]), if_pos ho]
  · intro now tt
    unfold FeiShuBot.init
    split
    · simp [countTo]
    · split
      · simp [countTo]
      · rcases hq : TenantToken.get c responder now tt with ⟨r, tt1, reqs⟩
        have h0 : countTo USER_ID_API reqs = 0 := by
          have h2 := countTo_tokenGet c responder now tt
          rw [hq] at h2
          exact h2
        cases r with
        | error e =>
            simp [h0]
        | ok tok =>
            dsimp only
            rcases hg : get_open_id c responder tok with ⟨r2, reqs2⟩
            have h1 : countTo USER_ID_API reqs2 ≤ 1 := by
              have h3 := countTo_get_open_id c responder tok
              rw [hg] at h3
              exact h3
            try rw [hg]
            cases r2 <;> dsimp only <;> simpa [countTo_append, h0] using h1

/-- C3 witness: with phone-only configuration and a one-record lookup reply,
resolution returns that record's `user_id` via exactly the one lookup
request; with no phone and no email it raises the configuration error with
no request. -/
theorem C3_recipient_resolution_witness :
    (∃ v, dictGet [("user_id", Json.str "ou_abc")] "user_id" = some v
       ∧ get_open_id cfgPhone lookupResponder "T"
           = (.ok v, [lookupRequest cfgPhone "T"]))
    ∧ get_open_id cfgNone lookupResponder "T"
        = (.error (.valueError configErrMsg), []) :=
  ⟨(C3_recipient_resolution cfgPhone lookupResponder).2.1 "T" "ok"
     [[("user_id", Json.str "ou_abc")]] [("user_id", Json.str "ou_abc")]
     rfl (by decide) rfl,
   (C3_recipient_resolution cfgNone lookupResponder).1 "T" (by decide) (by decide)⟩

theorem goodResponder_ok : goodResponder okResponder := by
  intro req
  exact ⟨rfl, ⟨"T", rfl⟩, ⟨7200, rfl⟩,
    ⟨[("user_list", .arr [.obj [("user_id", .str "ou_abc")]]),
      ("image_key", .str "img-k"), ("file_key", .str "file-k")], rfl⟩⟩

/-- C6 counterexample: the capability check comes first — with `cv2` absent
and a cover supplied (`"jpg-cover"` is nonempty), `send_media` still logs the
warning and returns the empty dict, issuing no upload at all, where the
claim promises the two uploads and a send. -/
theorem C6_send_media_counterexample :
    ("jpg-cover" : String) ≠ ""
    ∧ FeiShuBot.send_media none cfgFull okResponder 0 ttValid (.str "ou_123")
        (.bytes "vid") "jpg-cover"
      = (.ok (.obj []), ttValid, [],
         ["opencv-python is not installed, send_media is unavailable"]) :=
  ⟨by decide, rfl⟩

/-- C6 amended: `send_media` requires the image-processing capability
unconditionally — when absent it logs the warning and returns an empty
result regardless of the cover; when present, a supplied cover leads to the
mp4 video upload, the image cover upload, and one send of the two handles
merged, and a missing cover is first derived from the video's first
frame. -/
theorem C6_send_media_gate (cv : Cv2) (c : Config)
    (responder : Request → Envelope) (now : Int) (tt : TenantToken)
    (user_id : Json) (media : PyFile) (cover : String)
    (h : ¬ (tt.token = "" ∨ tt.expire_at < now))
    (hg : goodResponder responder) (hcover : cover ≠ "") :
    (∀ (tt2 : TenantToken) (user2 : Json) (media2 : PyFile) (cover2 : String),
      FeiShuBot.send_media none c responder now tt2 user2 media2 cover2
        = (.ok (.obj []), tt2, [],
           ["opencv-python is not installed, send_media is unavailable"]))
    ∧ (∃ d1 d2,
        dictGet (responder (uploadFileRequest tt.token "mp4"
          (uploadFilename media "") media.content)).rest "data" = some (.obj d1)
        ∧ dictGet (responder (uploadImageRequest tt.token "file" cover)).rest
            "data" = some (.obj d2)
        ∧ FeiShuBot.send_media (some cv) c responder now tt user_id media cover
            = (.ok (envToJson (responder (sendRequest tt.token user_id "media"
                 (.obj (dictUnion d1 d2))))),
               tt,
               [uploadFileRequest tt.token "mp4" (uploadFilename media "")
                  media.content,
                uploadImageRequest tt.token "file" cover,
                sendRequest tt.token user_id "media" (.obj (dictUnion d1 d2))],
               []))
    ∧ (∀ nm cnt,
        FeiShuBot.send_media (some cv) c responder now tt user_id (.stream nm cnt) ""
          = FeiShuBot.send_media (some cv) c responder now tt user_id
              (.stream nm cnt) (cv.firstFrameJpg nm)) := by
  refine ⟨?_, ?_, ?_⟩
  · intro tt2 user2 media2 cover2
    rfl
  · obtain ⟨d1, hd1ok, hd1⟩ := postFileResult_good responder hg
      (uploadFileRequest tt.token "mp4" (uploadFilename media "") media.content)
    obtain ⟨d2, hd2ok, hd2⟩ := postFileResult_good responder hg
      (uploadImageRequest tt.token "file" cover)
    refine ⟨d1, d2, hd1, hd2, ?_⟩
    unfold FeiShuBot.send_media
    dsimp only
    rw [if_neg hcover]
    dsimp only
    rw [post_file_other_valid c responder now tt "mp4" media "" h (by decide)]
    rw [hd1ok]
    dsimp only
    rw [post_file_image_valid c responder now tt (.bytes cover) "" h]
    have hfn : uploadFilename (PyFile.bytes cover) "" = "file" := rfl
    rw [hfn]
    rw [show (PyFile.bytes cover).content = cover from rfl]
    rw [hd2ok]
    dsimp only
    simp only [jsonUnion]
    rw [send_message_valid c responder now tt user_id "media"
        (.obj (dictUnion d1 d2)) h]
    rw [postResult_good responder hg _]
    simp
  · intro nm cnt
    simp only [FeiShuBot.send_media]
    by_cases hf : cv.firstFrameJpg nm = "" <;> simp [hf]

/-- C6 witness: with the capability available, a valid token, a well-formed
server and a nonempty cover, the amended behavior holds at concrete
inputs. -/
theorem C6_send_media_gate_witness :
    ¬ ((ttValid.token = "" ∨ ttValid.expire_at < 0))
    ∧ ("jpg-cover" : String) ≠ ""
    ∧ (∃ d1 d2,
        dictGet (okResponder (uploadFileRequest ttValid.token "mp4"
          (uploadFilename (.bytes "vid") "") (PyFile.bytes "vid").content)).rest
            "data" = some (.obj d1)
        ∧ dictGet (okResponder (uploadImageRequest ttValid.token "file"
            "jpg-cover")).rest "data" = some (.obj d2)
        ∧ FeiShuBot.send_media (some cv0) cfgFull okResponder 0 ttValid
            (.str "ou_123") (.bytes "vid") "jpg-cover"
            = (.ok (envToJson (okResponder (sendRequest ttValid.token
                 (.str "ou_123") "media" (.obj (dictUnion d1 d2))))),
               ttValid,
               [uploadFileRequest ttValid.token "mp4"
                  (uploadFilename (.bytes "vid") "") (PyFile.bytes "vid").content,
                uploadImageRequest ttValid.token "file" "jpg-cover",
                sendRequest ttValid.token (.str "ou_123") "media"
                  (.obj (dictUnion d1 d2))],
               [])) :=
  ⟨by decide, by decide,
   (C6_send_media_gate cv0 cfgFull okResponder 0 ttValid (.str "ou_123")
      (.bytes "vid") "jpg-cover" (by decide) goodResponder_ok (by decide)).2.1⟩

/-- C10: even with the bot enabled, a valid token and a fully successful
server, `send_card` succeeds with Python `None` as its value, while
`send_text`, `send_image`, `send_file`, `send_audio` and `send_media` each
succeed with the response of their final send call. -/
theorem C10_send_card_returns_none (c : Config) (responder : Request → Envelope)
    (now : Int) (tt : TenantToken) (user_id : Json)
    (message header msg : String) (image : PyFile) (file : PyFile)
    (file_type filename : String) (audio media : PyFile) (cover : String)
    (cv : Cv2) (h : ¬ (tt.token = "" ∨ tt.expire_at < now))
    (hg : goodResponder responder) (hcover : cover ≠ "") :
    (FeiShuBot.send_card c responder now tt user_id message header).1 = .ok none
    ∧ (FeiShuBot.send_text c responder now tt user_id msg).1
        = .ok (responder (sendRequest tt.token user_id "text"
            (.obj [("text", .str msg)])))
    ∧ (∃ ct, (FeiShuBot.send_image c responder now tt user_id image).1
        = .ok (responder (sendRequest tt.token user_id "image" ct)))
    ∧ (∃ ct, (FeiShuBot.send_file c responder now tt user_id file file_type
          filename).1
        = .ok (responder (sendRequest tt.token user_id "file" ct)))
    ∧ (∃ ct, (FeiShuBot.send_audio c responder now tt user_id audio).1
        = .ok (responder (sendRequest tt.token user_id "audio" ct)))
    ∧ (∃ ct, (FeiShuBot.send_media (some cv) c responder now tt user_id media
          cover).1
        = .ok (envToJson (responder (sendRequest tt.token user_id "media" ct)))) := by
  refine ⟨?_, ?_, ?_, ?_, ?_, ?_⟩
  · unfold FeiShuBot.send_card
    rw [send_message_valid c responder now tt user_id "interactive"
        (cardContent message header) h]
    rw [postResult_good responder hg _]
  · unfold FeiShuBot.send_text
    rw [send_message_valid c responder now tt user_id "text"
        (.obj [("text", .str msg)]) h]
    rw [postResult_good responder hg _]
  · obtain ⟨d, hdok, hd⟩ := postFileResult_good responder hg
      (uploadImageRequest tt.token (uploadFilename image "") image.content)
    refine ⟨.obj d, ?_⟩
    unfold FeiShuBot.send_image
    rw [post_file_image_valid c responder now tt image "" h, hdok]
    dsimp only
    rw [send_message_valid c responder now tt user_id "image" (.obj d) h]
    rw [postResult_good responder hg _]
  · by_cases hft : file_type = "image"
    · subst hft
      obtain ⟨d, hdok, hd⟩ := postFileResult_good responder hg
        (uploadImageRequest tt.token (uploadFilename file filename) file.content)
      refine ⟨.obj d, ?_⟩
      unfold FeiShuBot.send_file
      rw [post_file_image_valid c responder now tt file filename h, hdok]
      dsimp only
      rw [send_message_valid c responder now tt user_id "file" (.obj d) h]
      rw [postResult_good responder hg _]
    · obtain ⟨d, hdok, hd⟩ := postFileResult_good responder hg
        (uploadFileRequest tt.token file_type (uploadFilename file filename)
          file.content)
      refine ⟨.obj d, ?_⟩
      unfold FeiShuBot.send_file
      rw [post_file_other_valid c responder now tt file_type file filename h hft,
        hdok]
      dsimp only
      rw [send_message_valid c responder now tt user_id "file" (.obj d) h]
      rw [postResult_good responder hg _]
  · obtain ⟨d, hdok, hd⟩ := postFileResult_good responder hg
      (uploadFileRequest tt.token "opus" (uploadFilename audio "") audio.content)
    refine ⟨.obj d, ?_⟩
    unfold FeiShuBot.send_audio
    rw [post_file_other_valid c responder now tt "opus" audio "" h (by decide),
      hdok]
    dsimp only
    rw [send_message_valid c responder now tt user_id "audio" (.obj d) h]
    rw [postResult_good responder hg _]
  · obtain ⟨d1, hd1ok, hd1⟩ := postFileResult_good responder hg
      (uploadFileRequest tt.token "mp4" (uploadFilename media "") media.content)
    obtain ⟨d2, hd2ok, hd2⟩ := postFileResult_good responder hg
      (uploadImageRequest tt.token "file" cover)
    refine ⟨.obj (dictUnion d1 d2), ?_⟩
    unfold FeiShuBot.send_media
    dsimp only
    rw [if_neg hcover]
    dsimp only
    rw [post_file_other_valid c responder now tt "mp4" media "" h (by decide)]
    rw [hd1ok]
    dsimp only
    rw [post_file_image_valid c responder now tt (.bytes cover) "" h]
    rw [show uploadFilename (PyFile.bytes cover) "" = "file" from rfl]
    rw [show (PyFile.bytes cover).content = cover from rfl]
    rw [hd2ok]
    dsimp only
    simp only [jsonUnion]
    rw [send_message_valid c responder now tt user_id "media"
        (.obj (dictUnion d1 d2)) h]
    rw [postResult_good responder hg _]

/-- C10 witness: at concrete inputs, `send_card` yields `None` while
`send_text` yields the send reply. -/
theorem C10_send_card_returns_none_witness :
    (FeiShuBot.send_card cfgFull okResponder 0 ttValid (.str "ou_123")
       "**b**" "H").1 = .ok none
    ∧ (FeiShuBot.send_text cfgFull okResponder 0 ttValid (.str "ou_123")
         "hello").1
        = .ok (okResponder (sendRequest ttValid.token (.str "ou_123") "text"
            (.obj [("text", .str "hello")]))) :=
  ⟨(C10_send_card_returns_none cfgFull okResponder 0 ttValid (.str "ou_123")
      "**b**" "H" "hello" (.bytes "i") (.bytes "f") "pdf" "" (.bytes "a")
      (.bytes "v") "jpg-cover" cv0 (by decide) goodResponder_ok (by decide)).1,
   (C10_send_card_returns_none cfgFull okResponder 0 ttValid (.str "ou_123")
      "**b**" "H" "hello" (.bytes "i") (.bytes "f") "pdf" "" (.bytes "a")
      (.bytes "v") "jpg-cover" cv0 (by decide) goodResponder_ok (by decide)).2.1⟩
